import Mathlib

/-!
Verification of the Nexus Crisis Intelligence repository.

The repository is a map-and-dashboard web application: a backend that
enriches submitted crisis events through an AI text-analysis client and a
news-search client before persisting them, and a React frontend that
renders the events and filters them client-side.

The frontend components (`Dashboard.jsx`, the `CrisisMap` component, and
`NewsPanel.jsx`) are embedded directly from their source.  The backend
(`server.py`) is not part of the available sources; the event-creation
pipeline, its fallback policy and the persistence adapter are modelled
from the specification text, and every such definition is marked
`Modelled from the spec:` in its doc comment.
-/

/-- A news article as attached to events and returned by the news API:
title, description, source name, URL, image URL, published timestamp. -/
structure NewsArticle where
  title : String
  description : String
  source : String
  url : String
  url_to_image : String
  published_at : String
deriving DecidableEq, Repr

/-- An event record.  Coordinates are stored and returned by the system
without any arithmetic, so an exact rational carrier models the JavaScript
numbers faithfully for the store/fetch round trips considered here.
A record whose `news_articles` field is absent behaves in every embedded
computation exactly like one whose list is empty, so the field is a plain
list. -/
structure Event where
  id : String
  title : String
  description : String
  location : String
  latitude : Rat
  longitude : Rat
  event_type : String
  severity : String
  status : String
  ai_summary : String
  recommendations : List String
  timestamp : Nat
  news_articles : List NewsArticle
deriving DecidableEq, Repr

/-- A JavaScript value as produced by property access on the display
helpers' object literals: a string held as an own property, a value
inherited from `Object.prototype` (a built-in function such as
`toString`, or `Object.prototype` itself for the `__proto__` accessor —
always a truthy non-string), or `undefined`. -/
inductive JSValue where
  | undefined : JSValue
  | str : String → JSValue
  | inherited : String → JSValue
deriving DecidableEq, Repr

/-- The property names every plain object literal inherits from
`Object.prototype`; access at these keys yields a truthy inherited value
rather than `undefined`. -/
def objectPrototypeKeys : List String :=
  ["constructor", "hasOwnProperty", "isPrototypeOf", "propertyIsEnumerable",
   "toLocaleString", "toString", "valueOf", "__proto__",
   "__defineGetter__", "__defineSetter__", "__lookupGetter__", "__lookupSetter__"]

/-- JavaScript property access `obj[key]` on an object literal whose own
string-valued properties are given by `own`: the own value when present,
otherwise the value inherited along the prototype chain from
`Object.prototype`, otherwise `undefined`. -/
def jsIndex (own : String → Option String) (key : String) : JSValue :=
  match own key with
  | some v => JSValue.str v
  | none =>
      if key ∈ objectPrototypeKeys then JSValue.inherited key else JSValue.undefined

/-- JavaScript truthiness of such a value: `undefined` is falsy, a string
is truthy iff non-empty, every inherited `Object.prototype` value is a
function or object and hence truthy. -/
def jsTruthy : JSValue → Bool
  | JSValue.undefined => false
  | JSValue.str s => s ≠ ""
  | JSValue.inherited _ => true

/-- JavaScript `a || b`. -/
def jsOr (a b : JSValue) : JSValue :=
  if jsTruthy a then a else b

namespace Dashboard

/-- The own properties of the `colors` object of `getSeverityColor` in
`EventCard` (`Dashboard.jsx`); a key that is not an own property falls
through to the prototype chain (see `jsIndex`). -/
def severityColors (severity : String) : Option String :=
  if severity = "low" then some "bg-green-100 text-green-800 border-green-200"
  else if severity = "medium" then some "bg-yellow-100 text-yellow-800 border-yellow-200"
  else if severity = "high" then some "bg-orange-100 text-orange-800 border-orange-200"
  else if severity = "critical" then some "bg-red-100 text-red-800 border-red-200"
  else none

/-- `getSeverityColor` from `EventCard` in `Dashboard.jsx`:
`colors[severity] || colors.medium`, with both accesses modelled as full
JavaScript property lookups. -/
def getSeverityColor (severity : String) : JSValue :=
  jsOr (jsIndex severityColors severity) (jsIndex severityColors "medium")

/-- The own properties of the `icons` object of `getEventIcon` in
`EventCard` (`Dashboard.jsx`). -/
def eventIcons (eventType : String) : Option String :=
  if eventType = "earthquake" then some "🌋"
  else if eventType = "flood" then some "🌊"
  else if eventType = "fire" then some "🔥"
  else if eventType = "storm" then some "🌪️"
  else if eventType = "health_emergency" then some "🏥"
  else if eventType = "infrastructure_failure" then some "⚠️"
  else if eventType = "other" then some "📍"
  else none

/-- `getEventIcon` from `EventCard` in `Dashboard.jsx`:
`icons[eventType] || icons.other`, with both accesses modelled as full
JavaScript property lookups. -/
def getEventIcon (eventType : String) : JSValue :=
  jsOr (jsIndex eventIcons eventType) (jsIndex eventIcons "other")

/-- The statistics record computed by the dashboard. -/
structure Stats where
  total : Nat
  critical : Nat
  high : Nat
  active : Nat
  withNews : Nat
deriving DecidableEq, Repr

/-- `getStats` from `Dashboard.jsx`: total count and four filtered counts
over the in-memory event list. -/
def getStats (events : List Event) : Stats :=
  { total := events.length
    critical := (events.filter (fun e => e.severity = "critical")).length
    high := (events.filter (fun e => e.severity = "high")).length
    active := (events.filter (fun e => e.status = "active")).length
    withNews := (events.filter (fun e => e.news_articles.length > 0)).length }

end Dashboard

namespace CrisisMap

/-- The own properties of the `colors` object of the module-level
`getSeverityColor` in the `CrisisMap` component. -/
def severityColors (severity : String) : Option String :=
  if severity = "low" then some "#22c55e"
  else if severity = "medium" then some "#f59e0b"
  else if severity = "high" then some "#ef4444"
  else if severity = "critical" then some "#dc2626"
  else none

/-- `getSeverityColor` from the `CrisisMap` component:
`colors[severity] || colors.medium`, with both accesses modelled as full
JavaScript property lookups. -/
def getSeverityColor (severity : String) : JSValue :=
  jsOr (jsIndex severityColors severity) (jsIndex severityColors "medium")

/-- The own properties of the `icons` object of the module-level
`getEventIcon` in the `CrisisMap` component. -/
def eventIcons (eventType : String) : Option String :=
  if eventType = "earthquake" then some "🌋"
  else if eventType = "flood" then some "🌊"
  else if eventType = "fire" then some "🔥"
  else if eventType = "storm" then some "🌪️"
  else if eventType = "health_emergency" then some "🏥"
  else if eventType = "infrastructure_failure" then some "⚠️"
  else if eventType = "other" then some "📍"
  else none

/-- `getEventIcon` from the `CrisisMap` component:
`icons[eventType] || icons.other`, with both accesses modelled as full
JavaScript property lookups. -/
def getEventIcon (eventType : String) : JSValue :=
  jsOr (jsIndex eventIcons eventType) (jsIndex eventIcons "other")

/-- `filteredEvents` from the `CrisisMap` component:
`events.filter(event => typeMatch && severityMatch)` where
`typeMatch = selectedEventType === 'all' || event.event_type === selectedEventType`
and `severityMatch = selectedSeverity === 'all' || event.severity === selectedSeverity`. -/
def filteredEvents (events : List Event) (selectedEventType selectedSeverity : String) :
    List Event :=
  events.filter (fun event =>
    (selectedEventType = "all" || event.event_type = selectedEventType) &&
    (selectedSeverity = "all" || event.severity = selectedSeverity))

end CrisisMap

namespace Backend

/-- Modelled from the spec: the classification produced by the AI analysis
client (the backend `server.py` is not among the available sources).  The
spec names the fields event_type, severity, summary and recommendations. -/
structure AIAnalysis where
  event_type : String
  severity : String
  summary : String
  recommendations : List String
deriving DecidableEq, Repr

/-- Modelled from the spec: the fixed default classification substituted
on any AI-client error or empty/malformed response:
`{event_type: other, severity: medium, summary: echo of description,
recommendations: empty}`. -/
def defaultAnalysis (description : String) : AIAnalysis :=
  { event_type := "other"
    severity := "medium"
    summary := description
    recommendations := [] }

/-- Modelled from the spec: the news lookup client.  `raw` is the outcome
of the external news-search call (`none` on any error); the client
"returns up to a bounded number of articles", the bound being the
result-limit configuration passed in, and on error the pipeline
substitutes an empty article list. -/
def getCrisisNews (raw : Option (List NewsArticle)) (limit : Nat) : List NewsArticle :=
  match raw with
  | none => []
  | some articles => articles.take limit

/-- Modelled from the spec: a validated event submission
(title, description, location, coordinates). -/
structure EventSubmission where
  title : String
  description : String
  location : String
  latitude : Rat
  longitude : Rat
deriving DecidableEq, Repr

/-- Modelled from the spec: the raw JSON body of `POST /api/events` before
request validation; any required field may be missing. -/
structure RawSubmission where
  title : Option String
  description : Option String
  location : Option String
  latitude : Option Rat
  longitude : Option Rat
deriving DecidableEq, Repr

/-- Modelled from the spec: the event enrichment pipeline of the creation
call.  `aiResp` is the outcome of the AI analysis call (`none` on any
error, quota exhaustion, or empty/malformed response) and `newsResp` the
outcome of the news-search call (`none` on any error); the creation
attaches at most 3 articles.  `newId` and `now` stand for the generated
identifier and creation timestamp. -/
def createEvent (sub : EventSubmission) (aiResp : Option AIAnalysis)
    (newsResp : Option (List NewsArticle)) (newId : String) (now : Nat) : Event :=
  let analysis := aiResp.getD (defaultAnalysis sub.description)
  { id := newId
    title := sub.title
    description := sub.description
    location := sub.location
    latitude := sub.latitude
    longitude := sub.longitude
    event_type := analysis.event_type
    severity := analysis.severity
    status := "active"
    ai_summary := analysis.summary
    recommendations := analysis.recommendations
    timestamp := now
    news_articles := getCrisisNews newsResp 3 }

/-- Modelled from the spec: the persistence adapter's write — a
single-document insert into the backing store. -/
def saveEvent (store : List Event) (e : Event) : List Event :=
  e :: store

/-- Modelled from the spec: the persistence adapter's read by identifier
(`GET /api/events/{id}`). -/
def getEventById (store : List Event) (i : String) : Option Event :=
  store.find? (fun e => e.id = i)

/-- Modelled from the spec: the `POST /api/events` handler.  Malformed
input (a missing required field) is surfaced as a request-validation
error; otherwise the submission is enriched and persisted, and the stored
event is returned together with the new store state. -/
def postEvent (store : List Event) (body : RawSubmission)
    (aiResp : Option AIAnalysis) (newsResp : Option (List NewsArticle))
    (newId : String) (now : Nat) : Except String (Event × List Event) :=
  match body.title, body.description, body.location, body.latitude, body.longitude with
  | some t, some d, some l, some la, some lo =>
      let e := createEvent ⟨t, d, l, la, lo⟩ aiResp newsResp newId now
      Except.ok (e, saveEvent store e)
  | _, _, _, _, _ => Except.error "Missing required fields"

end Backend

/-- C3: for every event list and every pair of selector values, the
presentation filter has AND semantics: an event is in the result iff it is
in the input, its type matches the type selector (or that selector is
"all"), and its severity matches the severity selector (or that selector
is "all"). -/
theorem filter_and_semantics (events : List Event)
    (selectedEventType selectedSeverity : String) (e : Event) :
    e ∈ CrisisMap.filteredEvents events selectedEventType selectedSeverity ↔
      e ∈ events ∧
        (selectedEventType = "all" ∨ e.event_type = selectedEventType) ∧
        (selectedSeverity = "all" ∨ e.severity = selectedSeverity) := by
  simp [CrisisMap.filteredEvents, List.mem_filter, and_assoc]

/-- C4: filtering with both selectors set to "all" returns the full event
list unchanged. -/
theorem filter_all_all_identity (events : List Event) :
    CrisisMap.filteredEvents events "all" "all" = events := by
  simp [CrisisMap.filteredEvents]

/-- C9: for every event list and every pair of selector values, the
filtered list is a sublist of the input: it preserves relative order,
adds no event, multiplies no event, and is no longer than the input. -/
theorem filter_sublist_of_input (events : List Event)
    (selectedEventType selectedSeverity : String) :
    List.Sublist (CrisisMap.filteredEvents events selectedEventType selectedSeverity) events ∧
    (CrisisMap.filteredEvents events selectedEventType selectedSeverity).length ≤
      events.length ∧
    ∀ e : Event,
      (CrisisMap.filteredEvents events selectedEventType selectedSeverity).count e ≤
        events.count e := by
  refine ⟨List.filter_sublist events, List.length_filter_le _ events, fun e => ?_⟩
  exact (List.filter_sublist events).count_le e

/-- C10: `getStats` returns `total` equal to the list length and
`critical`, `high`, `active`, `withNews` equal to the number of events
with severity "critical", severity "high", status "active", and a
non-empty news_articles list respectively; each count is at most
`total`. -/
theorem getStats_correct (events : List Event) :
    (Dashboard.getStats events).total = events.length ∧
    (Dashboard.getStats events).critical =
      events.countP (fun e => e.severity = "critical") ∧
    (Dashboard.getStats events).high =
      events.countP (fun e => e.severity = "high") ∧
    (Dashboard.getStats events).active =
      events.countP (fun e => e.status = "active") ∧
    (Dashboard.getStats events).withNews =
      events.countP (fun e => e.news_articles ≠ []) ∧
    (Dashboard.getStats events).critical ≤ (Dashboard.getStats events).total ∧
    (Dashboard.getStats events).high ≤ (Dashboard.getStats events).total ∧
    (Dashboard.getStats events).active ≤ (Dashboard.getStats events).total ∧
    (Dashboard.getStats events).withNews ≤ (Dashboard.getStats events).total := by
  refine ⟨rfl, ?_, ?_, ?_, ?_, ?_, ?_, ?_, ?_⟩ <;>
    simp [Dashboard.getStats, List.countP_eq_length_filter, List.length_filter_le,
      List.length_pos_iff_ne_nil]

/-- JavaScript `a || b` is never `undefined` when `b` is truthy. -/
theorem jsOr_ne_undefined (a b : JSValue) (hb : jsTruthy b = true) :
    jsOr a b ≠ JSValue.undefined := by
  unfold jsOr
  split_ifs with h
  · intro heq
    rw [heq] at h
    simp [jsTruthy] at h
  · intro heq
    rw [heq] at hb
    simp [jsTruthy] at hb

/-- C8 counterexample: at the input "toString" — outside both
enumerations — JavaScript property lookup finds the truthy
`Object.prototype.toString` along the prototype chain, so `||` never
falls back: none of the four helpers returns its claimed default there. -/
theorem display_helpers_fallback_counterexample :
    "toString" ∉ ["low", "medium", "high", "critical"] ∧
    "toString" ∉ ["earthquake", "flood", "fire", "storm", "health_emergency",
      "infrastructure_failure", "other"] ∧
    Dashboard.getSeverityColor "toString" ≠ Dashboard.getSeverityColor "medium" ∧
    Dashboard.getEventIcon "toString" ≠ Dashboard.getEventIcon "other" ∧
    CrisisMap.getSeverityColor "toString" ≠ CrisisMap.getSeverityColor "medium" ∧
    CrisisMap.getEventIcon "toString" ≠ CrisisMap.getEventIcon "other" ∧
    Dashboard.getSeverityColor "toString" = JSValue.inherited "toString" := by
  decide

/-- C8 amended: for every input string that is neither in the respective
enumeration nor a property name inherited from `Object.prototype`, each
severity helper returns the medium colour and each icon helper the
"other" icon; and for every input string whatsoever, none of the four
helpers ever returns an undefined value. -/
theorem display_helpers_total_with_fallback (s t : String)
    (hs : s ∉ ["low", "medium", "high", "critical"])
    (hsp : s ∉ objectPrototypeKeys)
    (ht : t ∉ ["earthquake", "flood", "fire", "storm", "health_emergency",
      "infrastructure_failure", "other"])
    (htp : t ∉ objectPrototypeKeys) :
    Dashboard.getSeverityColor s = Dashboard.getSeverityColor "medium" ∧
    Dashboard.getEventIcon t = Dashboard.getEventIcon "other" ∧
    CrisisMap.getSeverityColor s = CrisisMap.getSeverityColor "medium" ∧
    CrisisMap.getEventIcon t = CrisisMap.getEventIcon "other" ∧
    (∀ u : String,
      Dashboard.getSeverityColor u ≠ JSValue.undefined ∧
      Dashboard.getEventIcon u ≠ JSValue.undefined ∧
      CrisisMap.getSeverityColor u ≠ JSValue.undefined ∧
      CrisisMap.getEventIcon u ≠ JSValue.undefined) := by
  simp only [List.mem_cons, List.not_mem_nil, or_false, not_or] at hs ht
  obtain ⟨hs1, hs2, hs3, hs4⟩ := hs
  obtain ⟨ht1, ht2, ht3, ht4, ht5, ht6, ht7⟩ := ht
  refine ⟨?_, ?_, ?_, ?_,
    fun u => ⟨jsOr_ne_undefined _ _ (by decide), jsOr_ne_undefined _ _ (by decide),
      jsOr_ne_undefined _ _ (by decide), jsOr_ne_undefined _ _ (by decide)⟩⟩
  · simp [Dashboard.getSeverityColor, Dashboard.severityColors, jsIndex, jsOr,
      jsTruthy, hsp, hs1, hs2, hs3, hs4]
  · simp [Dashboard.getEventIcon, Dashboard.eventIcons, jsIndex, jsOr,
      jsTruthy, htp, ht1, ht2, ht3, ht4, ht5, ht6, ht7]
  · simp [CrisisMap.getSeverityColor, CrisisMap.severityColors, jsIndex, jsOr,
      jsTruthy, hsp, hs1, hs2, hs3, hs4]
  · simp [CrisisMap.getEventIcon, CrisisMap.eventIcons, jsIndex, jsOr,
      jsTruthy, htp, ht1, ht2, ht3, ht4, ht5, ht6, ht7]

/-- Witness for the amended C8 at the concrete inputs "banana" and
"asteroid", outside the enumerations and not inherited from
`Object.prototype`. -/
theorem display_helpers_total_with_fallback_witness :
    Dashboard.getSeverityColor "banana" = Dashboard.getSeverityColor "medium" ∧
    Dashboard.getEventIcon "asteroid" = Dashboard.getEventIcon "other" ∧
    CrisisMap.getSeverityColor "banana" = CrisisMap.getSeverityColor "medium" ∧
    CrisisMap.getEventIcon "asteroid" = CrisisMap.getEventIcon "other" ∧
    (∀ u : String,
      Dashboard.getSeverityColor u ≠ JSValue.undefined ∧
      Dashboard.getEventIcon u ≠ JSValue.undefined ∧
      CrisisMap.getSeverityColor u ≠ JSValue.undefined ∧
      CrisisMap.getEventIcon u ≠ JSValue.undefined) :=
  display_helpers_total_with_fallback "banana" "asteroid"
    (by decide) (by decide) (by decide) (by decide)

/-- C1: for every valid submission (all five required fields present), the
creation call succeeds and persists the event, for every outcome of the
AI client and of the news client — including failure of either or both;
external-service failure is never surfaced as a creation failure. -/
theorem creation_succeeds_despite_external_failures (store : List Event)
    (body : Backend.RawSubmission) (aiResp : Option Backend.AIAnalysis)
    (newsResp : Option (List NewsArticle)) (newId : String) (now : Nat)
    (ht : body.title.isSome) (hd : body.description.isSome)
    (hl : body.location.isSome) (hla : body.latitude.isSome)
    (hlo : body.longitude.isSome) :
    ∃ e st, Backend.postEvent store body aiResp newsResp newId now = Except.ok (e, st) ∧
      Backend.getEventById st newId = some e := by
  obtain ⟨t, ht⟩ := Option.isSome_iff_exists.mp ht
  obtain ⟨d, hd⟩ := Option.isSome_iff_exists.mp hd
  obtain ⟨l, hl⟩ := Option.isSome_iff_exists.mp hl
  obtain ⟨la, hla⟩ := Option.isSome_iff_exists.mp hla
  obtain ⟨lo, hlo⟩ := Option.isSome_iff_exists.mp hlo
  have hbody : body = ⟨some t, some d, some l, some la, some lo⟩ := by
    rcases body with ⟨bt, bd, bl, bla, blo⟩
    simp_all
  subst hbody
  refine ⟨_, _, rfl, ?_⟩
  simp only [Backend.getEventById, Backend.saveEvent]
  exact List.find?_cons_of_pos _ (by simp [Backend.createEvent])

/-- Witness for C1: a concrete valid submission created while both
external clients fail. -/
theorem creation_succeeds_despite_external_failures_witness :
    ∃ e st,
      Backend.postEvent []
        ⟨some "Fire in Delhi", some "A large fire broke out", some "Delhi",
          some 28, some 77⟩ none none "ev1" 0 = Except.ok (e, st) ∧
      Backend.getEventById st "ev1" = some e :=
  creation_succeeds_despite_external_failures []
    ⟨some "Fire in Delhi", some "A large fire broke out", some "Delhi",
      some 28, some 77⟩ none none "ev1" 0
    rfl rfl rfl rfl rfl

/-- C2: whenever the AI client fails (or returns an empty/malformed
response, both modelled as `none`), the created event carries the default
classification: event_type "other", severity "medium", ai_summary echoing
the submitted description, and empty recommendations. -/
theorem ai_failure_defaults (sub : Backend.EventSubmission)
    (aiResp : Option Backend.AIAnalysis) (newsResp : Option (List NewsArticle))
    (newId : String) (now : Nat) (hfail : aiResp = none) :
    (Backend.createEvent sub aiResp newsResp newId now).event_type = "other" ∧
    (Backend.createEvent sub aiResp newsResp newId now).severity = "medium" ∧
    (Backend.createEvent sub aiResp newsResp newId now).ai_summary = sub.description ∧
    (Backend.createEvent sub aiResp newsResp newId now).recommendations = [] := by
  subst hfail
  simp [Backend.createEvent, Backend.defaultAnalysis]

/-- Witness for C2 at a concrete submission with the AI client failing. -/
theorem ai_failure_defaults_witness :
    (Backend.createEvent ⟨"Flood", "River overflowed", "Assam", 26, 92⟩
        none none "ev2" 5).event_type = "other" ∧
    (Backend.createEvent ⟨"Flood", "River overflowed", "Assam", 26, 92⟩
        none none "ev2" 5).severity = "medium" ∧
    (Backend.createEvent ⟨"Flood", "River overflowed", "Assam", 26, 92⟩
        none none "ev2" 5).ai_summary = "River overflowed" ∧
    (Backend.createEvent ⟨"Flood", "River overflowed", "Assam", 26, 92⟩
        none none "ev2" 5).recommendations = [] :=
  ai_failure_defaults ⟨"Flood", "River overflowed", "Assam", 26, 92⟩
    none none "ev2" 5 rfl

/-- C5: the news_articles list never exceeds the configured cap: event
creation attaches at most 3 articles whatever the news client returned,
and a direct news query returns at most the requested limit — in
particular at most 15 on the dashboard news-panel query. -/
theorem news_articles_bounded :
    (∀ (sub : Backend.EventSubmission) (aiResp : Option Backend.AIAnalysis)
        (newsResp : Option (List NewsArticle)) (newId : String) (now : Nat),
      (Backend.createEvent sub aiResp newsResp newId now).news_articles.length ≤ 3) ∧
    (∀ (raw : Option (List NewsArticle)) (limit : Nat),
      (Backend.getCrisisNews raw limit).length ≤ limit) ∧
    (∀ raw : Option (List NewsArticle), (Backend.getCrisisNews raw 15).length ≤ 15) := by
  refine ⟨fun sub aiResp newsResp newId now => ?_, fun raw limit => ?_, fun raw => ?_⟩ <;>
    first
    | (cases newsResp <;>
        simp [Backend.createEvent, Backend.getCrisisNews, List.length_take])
    | (cases raw <;> simp [Backend.getCrisisNews, List.length_take])

/-- C6: create-then-fetch round trip — an event created from a valid
submission and then fetched by its identifier has exactly the submitted
title, location, latitude and longitude. -/
theorem create_fetch_round_trip (store : List Event)
    (body : Backend.RawSubmission) (aiResp : Option Backend.AIAnalysis)
    (newsResp : Option (List NewsArticle)) (newId : String) (now : Nat)
    (t d l : String) (la lo : Rat)
    (ht : body.title = some t) (hd : body.description = some d)
    (hl : body.location = some l) (hla : body.latitude = some la)
    (hlo : body.longitude = some lo) :
    ∃ e st, Backend.postEvent store body aiResp newsResp newId now = Except.ok (e, st) ∧
      Backend.getEventById st newId = some e ∧
      e.title = t ∧ e.location = l ∧ e.latitude = la ∧ e.longitude = lo := by
  have hbody : body = ⟨some t, some d, some l, some la, some lo⟩ := by
    rcases body with ⟨bt, bd, bl, bla, blo⟩
    simp_all
  subst hbody
  refine ⟨_, _, rfl, ?_, rfl, rfl, rfl, rfl⟩
  simp only [Backend.getEventById, Backend.saveEvent]
  exact List.find?_cons_of_pos _ (by simp [Backend.createEvent])

/-- Witness for C6 at a concrete valid submission. -/
theorem create_fetch_round_trip_witness :
    ∃ e st,
      Backend.postEvent []
        ⟨some "Quake", some "Tremors felt", some "Gujarat", some 23, some 70⟩
        none none "ev3" 9 = Except.ok (e, st) ∧
      Backend.getEventById st "ev3" = some e ∧
      e.title = "Quake" ∧ e.location = "Gujarat" ∧
      e.latitude = 23 ∧ e.longitude = 70 :=
  create_fetch_round_trip []
    ⟨some "Quake", some "Tremors felt", some "Gujarat", some 23, some 70⟩
    none none "ev3" 9 "Quake" "Tremors felt" "Gujarat" 23 70
    rfl rfl rfl rfl rfl

/-- C7: the creation call is the only mutation of the store, and it only
prepends the newly enriched record: every previously stored event is
present unchanged afterwards — its identifier, timestamp and all
enrichment fields exactly as they were — and the reads `getEventById`
keeps returning it under its identifier when that identifier is not the
new one. -/
theorem existing_events_immutable (store : List Event)
    (body : Backend.RawSubmission) (aiResp : Option Backend.AIAnalysis)
    (newsResp : Option (List NewsArticle)) (newId : String) (now : Nat)
    (e' : Event) (st : List Event)
    (h : Backend.postEvent store body aiResp newsResp newId now = Except.ok (e', st)) :
    st = e' :: store ∧ (∀ e ∈ store, e ∈ st) ∧
    ∀ i : String, i ≠ newId →
      Backend.getEventById st i = Backend.getEventById store i := by
  rcases body with ⟨bt, bd, bl, bla, blo⟩
  cases bt <;> cases bd <;> cases bl <;> cases bla <;> cases blo <;>
    simp [Backend.postEvent, Backend.saveEvent] at h
  obtain ⟨h1, h2⟩ := h
  have hst : st = e' :: store := by rw [← h2, h1]
  have hid : e'.id = newId := by rw [← h1]; rfl
  subst hst
  refine ⟨rfl, fun e he => List.mem_cons_of_mem _ he, fun i hi => ?_⟩
  simp only [Backend.getEventById]
  refine List.find?_cons_of_neg _ ?_
  simp [hid]
  exact fun hc => hi hc.symm

/-- Witness for C7: after a concrete creation on a one-event store, the
pre-existing event is untouched and still readable. -/
theorem existing_events_immutable_witness :
    ∃ e' st,
      Backend.postEvent
        [⟨"ev0", "Old", "Old event", "Pune", 18, 73, "other", "medium",
          "active", "Old event", [], 1, []⟩]
        ⟨some "New", some "New event", some "Goa", some 15, some 74⟩
        none none "ev9" 2 = Except.ok (e', st) ∧
      (st = e' ::
          [⟨"ev0", "Old", "Old event", "Pune", 18, 73, "other", "medium",
            "active", "Old event", [], 1, []⟩] ∧
        (∀ e ∈ [(⟨"ev0", "Old", "Old event", "Pune", 18, 73, "other", "medium",
            "active", "Old event", [], 1, []⟩ : Event)], e ∈ st) ∧
        ∀ i : String, i ≠ "ev9" →
          Backend.getEventById st i =
            Backend.getEventById
              [⟨"ev0", "Old", "Old event", "Pune", 18, 73, "other", "medium",
                "active", "Old event", [], 1, []⟩] i) :=
  ⟨Backend.createEvent ⟨"New", "New event", "Goa", 15, 74⟩ none none "ev9" 2,
    Backend.saveEvent
      [⟨"ev0", "Old", "Old event", "Pune", 18, 73, "other", "medium",
        "active", "Old event", [], 1, []⟩]
      (Backend.createEvent ⟨"New", "New event", "Goa", 15, 74⟩ none none "ev9" 2),
    rfl,
    existing_events_immutable
      [⟨"ev0", "Old", "Old event", "Pune", 18, 73, "other", "medium",
        "active", "Old event", [], 1, []⟩]
      ⟨some "New", some "New event", some "Goa", some 15, some 74⟩
      none none "ev9" 2 _ _ rfl⟩
